import Mathlib

/-!
# Verification of the `FlightScheduler` cog (src/flightscheduler.py)

A shallow embedding of the flight-scheduling module: the periodic webhook
refresher (`update_webhook`), the delayed check-in-closed notifier spawned by
`flight start`, the creation payload of `flight create`, and the attribute
environment produced by the constructor.

Modelling conventions:
* Instants are integers counting microseconds (the resolution of Python
  `datetime`); a `timedelta(minutes=m)` is `m * 60 * 1000000` microseconds.
* Discord serialises every `scheduled_start_time` of one response in the same
  fixed-width ISO-8601 UTC format, so lexicographic order of the raw strings
  (the key used by `sorted` in `update_webhook`) coincides with chronological
  order of the parsed instants; events therefore carry the parsed instant
  `scheduled_start_time_us` and both the filter comparison and the sort key
  are modelled on it.
* Python `int(x)` on a float truncates toward zero; on the exact quotient of
  two integers with positive divisor this is `Int.tdiv`.
* Fallible external calls are parameters (statuses, fetched bodies), and each
  operation is a pure function from those parameters to the effects it emits.
-/

/-- One Discord scheduled event as consumed by the module: `name`,
`description` (absent keys are read with `e.get("description", "")`),
the parsed `scheduled_start_time` instant, and the
`entity_metadata.location` link. -/
structure ScheduledEvent where
  name : String
  description : Option String
  scheduled_start_time_us : Int
  location : String
deriving DecidableEq, Repr

/-- The comparison used by `sorted(..., key=lambda e: e["scheduled_start_time"])`:
ascending start instants (see the module docstring for why the raw-string key
is modelled by the parsed instant). -/
def eventLE (a b : ScheduledEvent) : Bool :=
  decide (a.scheduled_start_time_us ≤ b.scheduled_start_time_us)

/-- Lines 56-63 of `update_webhook`: keep the events whose start is strictly
after the current instant, then stably sort ascending by start time
(Python `sorted` is a stable merge sort; so is `List.mergeSort`). -/
def upcoming (events : List ScheduledEvent) (now_us : Int) : List ScheduledEvent :=
  (events.filter (fun e => decide (now_us < e.scheduled_start_time_us))).mergeSort eventLE

/-- One field of the summary embed. -/
structure EmbedField where
  name : String
  value : String
deriving DecidableEq, Repr

/-- The embed dictionary built by `update_webhook` (only the keys the code
writes; the empty case has a `description` and no `fields`, the non-empty
case has `fields` and no `description`). -/
structure Embed where
  title : String
  description : Option String
  fields : Option (List EmbedField)
  color : Nat
  footer : String
deriving DecidableEq, Repr

def upcomingFlightsTitle : String := "Upcoming Flights"

def noFlightsText : String := "No flights scheduled."

def footerText : String := "Updates every 5 min"

/-- The placeholder embed rendered when no upcoming event remains (lines 65-71). -/
def emptyScheduleEmbed : Embed :=
  { title := upcomingFlightsTitle, description := some noFlightsText,
    fields := none, color := 0xE5E1DE, footer := footerText }

/-- Lines 65-78: placeholder for an empty list, otherwise the first two items
(`upcoming[:2]`) rendered as fields. -/
def buildEmbed (upcomingEvents : List ScheduledEvent) : Embed :=
  if upcomingEvents.isEmpty then emptyScheduleEmbed
  else
    { title := upcomingFlightsTitle, description := none,
      fields := some ((upcomingEvents.take 2).map
        (fun e => { name := e.name, value := e.description.getD (r"") })),
      color := 0xE5E1DE, footer := footerText }

/-- The response of the scheduled-events fetch (status and decoded body). -/
structure FetchResponse where
  status : Nat
  events : List ScheduledEvent
deriving DecidableEq, Repr

/-- The observable effects of one refresher tick, in emission order. -/
inductive TickEffect where
  | warnFetchFailed (status : Nat)
  | patchWebhook (embed : Embed)
  | warnPatchFailed (status : Nat)
  | logSend (content : String)
deriving DecidableEq, Repr

def updatedLogLine : String := "Updated flight schedule webhook."

/-- Lines 43-87, `update_webhook` body, as a function from the external
responses it observes to the ordered list of effects it emits.  A non-200
fetch logs a warning and returns (lines 50-53) before the webhook patch; a
successful fetch patches the webhook message, warns on a bad patch status,
and then posts the diagnostic line if the logging channel resolves.  No
statement on this path raises, so the tick is a total function. -/
def update_webhook_tick (fetch : FetchResponse) (patchStatus : Nat)
    (logChannelExists : Bool) (now_us : Int) : List TickEffect :=
  if fetch.status ≠ 200 then
    [TickEffect.warnFetchFailed fetch.status]
  else
    (TickEffect.patchWebhook (buildEmbed (upcoming fetch.events now_us)) ::
      (if patchStatus = 200 ∨ patchStatus = 204 then [] else
        [TickEffect.warnPatchFailed patchStatus])) ++
    (if logChannelExists then [TickEffect.logSend updatedLogLine] else [])

/-! ## The constructor's attribute environment (claim C1)

`FlightScheduler.__init__` (lines 26-37) assigns `self.bot` and `self.TOKEN`,
and then binds the six configuration identifiers as plain local variables
(lines 30-35) without ever attaching them to `self`.  Python attribute lookup
on the instance finds only the attributes actually bound; reading any other
name raises `AttributeError`.  We record the set of names bound on the
instance, the constructor's local bindings, and the in-order sequence of
`self.<name>` reads each operation performs before its first external call
that uses a configured identifier. -/

/-- The configuration names bound as locals in `__init__` (lines 30-35),
in source order. -/
def constructorLocalConfigNames : List String :=
  [r"GUILD_ID", r"REQUIRED_ROLE_ID", r"ANNOUNCEMENT_CHANNEL_ID",
   r"WEBHOOK_URL", r"WEBHOOK_MESSAGE_ID", r"LOGGING_CHANNEL_ID"]

/-- The names actually bound on the instance by `__init__`:
`self.bot` (line 27) and `self.TOKEN` (line 29). -/
def instanceAttributeNames : List String := [r"bot", r"TOKEN"]

/-- Python attribute lookup on the constructed instance: a bound name
resolves, any other raises `AttributeError` (`none`). -/
def getattrFlightScheduler (n : String) : Option String :=
  if instanceAttributeNames.contains n then some n else none

/-- `self.<name>` reads of `update_webhook`, in order, up to (and including)
the one inside the URL of the fetch (lines 46 and 49). -/
def selfReads_update_webhook : List String := [r"TOKEN", r"GUILD_ID"]

/-- First `self.<name>` read of `flight_create` (line 121), which precedes
the event-creation POST. -/
def selfReads_flight_create : List String := [r"REQUIRED_ROLE_ID"]

/-- First `self.<name>` read of `flight_start` (line 173), which precedes
the event GET. -/
def selfReads_flight_start : List String := [r"REQUIRED_ROLE_ID"]

/-- First `self.<name>` read of `flight_cancel` (line 253), which precedes
the event DELETE. -/
def selfReads_flight_cancel : List String := [r"REQUIRED_ROLE_ID"]

/-- The first read in the sequence that raises `AttributeError`, if any. -/
def firstUnboundRead (reads : List String) : Option String :=
  reads.find? (fun n => getattrFlightScheduler n = none)

/-- An operation reaches its configured external call only if every
`self.<name>` read before that call resolves. -/
def reachesConfiguredExternalCall (reads : List String) : Bool :=
  reads.all (fun n => (getattrFlightScheduler n).isSome)

/-! ## Time arithmetic of `flight_start` (claims C3, C4) -/

/-- Line 207: `lock_time = start_time + timedelta(minutes=15)`, in microseconds. -/
def lock_time_us (start_time_us : Int) : Int := start_time_us + 15 * 60 * 1000000

/-- Line 208: `minutes_until_lock = max(0, int((lock_time - now).total_seconds() / 60))`.
`int` truncates toward zero, i.e. `Int.tdiv` of the microsecond difference by
one minute of microseconds. -/
def minutes_until_lock (start_time_us now_us : Int) : Int :=
  max 0 (Int.tdiv (lock_time_us start_time_us - now_us) 60000000)

/-- Line 228: the duration handed to `asyncio.sleep` is the raw difference
`(lock_time - datetime.now(timezone.utc)).total_seconds()`, with no clamping
in the module's code. -/
def sleep_argument_us (lock_us now_us : Int) : Int := lock_us - now_us

/-- Modelled from the semantics of the `asyncio` collaborator: `asyncio.sleep`
returns immediately (after a single yield) when the requested delay is zero or
negative, so the effective wait is the delay clamped at zero. -/
def asyncio_sleep_effective_wait (delay_us : Int) : Int := max 0 delay_us

/-- What claim C4 says the module passes to the delay primitive: the
difference already clamped at zero. -/
def sleep_argument_claimed (lock_us now_us : Int) : Int := max 0 (lock_us - now_us)

/-! ## The delayed check-in-closed task (claims C4, C9) -/

/-- Outcome of the best-effort `msg.delete()` call: success, or any
`discord.HTTPException` (e.g. the message was already deleted). -/
inductive DeleteOutcome where
  | success
  | httpException
deriving DecidableEq, Repr

/-- One step of the delayed task, in execution order. -/
inductive TaskStep where
  | sleep (delay_us : Int)
  | deleteOpenMessage (outcome : DeleteOutcome)
  | sendChannel (content : String)
deriving DecidableEq, Repr

/-- The check-in-closed announcement text (lines 233-239). -/
def closed_message (flight_number departure arrival : String) : String :=
  "<:Lock:1379811903332679830> **Check-in Closed**\n-# " ++ departure ++
  "\n\n<:Dash:1379811908886204567> **-**\n> Check-in for flight **" ++ flight_number ++
  "** to **" ++ arrival ++
  "** has now been closed. If you have missed your flight, please attend the next one!\n\n-# <:Tail:1379811826467868804> **ETIHAD OPERATIONS**"

/-- The `try: await msg.delete() except discord.HTTPException: pass` block:
either outcome is absorbed. -/
def attempt_delete (outcome : DeleteOutcome) : Except Unit Unit :=
  match outcome with
  | .success => Except.ok ()
  | .httpException => Except.error ()

/-- Lines 227-240, `send_checkin_closed`: sleep for the raw remaining time,
attempt the delete (its failure is caught and ignored), then send the closed
announcement.  The trace lists the steps in the order the coroutine performs
them. -/
def send_checkin_closed (lock_us now_us : Int) (del : DeleteOutcome)
    (flight_number departure arrival : String) : List TaskStep :=
  TaskStep.sleep (sleep_argument_us lock_us now_us) ::
    (match attempt_delete del with
      | Except.ok _ => [TaskStep.deleteOpenMessage del]
      | Except.error _ => [TaskStep.deleteOpenMessage del]) ++
    [TaskStep.sendChannel (closed_message flight_number departure arrival)]

/-! ## Event creation payload (claim C10) -/

/-- `datetime.utcfromtimestamp` of an integer Unix timestamp, in microseconds. -/
def pyUtcFromTimestamp (t : Int) : Int := t * 1000000

/-- `timedelta(minutes=m)` in microseconds. -/
def timedeltaMinutes (m : Int) : Int := m * 60 * 1000000

/-- The fields of the creation payload submitted by `flight_create`
(lines 136-148) that the claims are about. -/
structure FlightEventPayload where
  name : String
  description : String
  scheduled_start_time_us : Int
  scheduled_end_time_us : Int
  location : String
deriving DecidableEq, Repr

/-! ## The description template and the extraction pattern (claims C5, C8)

`flight_create` builds the event description from a fixed template
(lines 138-141); `flight_start` recovers the three fields with
`re.search(pattern, description, re.DOTALL)` (lines 193-197) where

    pattern = <:Tail:\d+>\s+\*\*Etihad Airways\*\* cordially invites you to
              attend Flight\s+\*\*(.+?)\*\*, operating from\s+\*\*(.+?)\*\*
              to\s+\*\*(.+?)\*\* aboard

We embed that specific pattern as an executable backtracking matcher over
`List Char` with Python's leftmost-match, lazy-group preference order.
`\s+` and `\d+` are each followed by a literal that is neither whitespace nor
a digit (a star, resp. a closing angle bracket), so maximal munch is a
complete implementation of their backtracking.  The whitespace class is
Python's exact (Unicode) one; the digit class is the ASCII subset of `\d`,
which is sound here: the only text `\d+` must accept positively is the
template's ASCII snowflake id, and a smaller class only shrinks the matched
language, strengthening every `extract = none` hypothesis. -/

/-- Python's whitespace class: the characters for which `str.isspace()` holds,
which is both the set stripped by `str.strip()` and the set matched by `\s`
on `str` patterns — U+0009..U+000D, U+001C..U+001F, U+0020, U+0085, U+00A0,
U+1680, U+2000..U+200A, U+2028, U+2029, U+202F, U+205F and U+3000. -/
def isSpc (c : Char) : Bool :=
  (decide (0x09 ≤ c.toNat) && decide (c.toNat ≤ 0x0D)) ||
  (decide (0x1C ≤ c.toNat) && decide (c.toNat ≤ 0x1F)) ||
  c.toNat == 0x20 || c.toNat == 0x85 || c.toNat == 0xA0 || c.toNat == 0x1680 ||
  (decide (0x2000 ≤ c.toNat) && decide (c.toNat ≤ 0x200A)) ||
  c.toNat == 0x2028 || c.toNat == 0x2029 || c.toNat == 0x202F ||
  c.toNat == 0x205F || c.toNat == 0x3000

/-- Python `str.strip()`: remove leading and trailing whitespace (`isSpc`). -/
def pyStrip (l : List Char) : List Char :=
  ((l.dropWhile isSpc).reverse.dropWhile isSpc).reverse

/-- Match a literal character sequence, returning the remainder. -/
def stripLit : List Char → List Char → Option (List Char)
  | [], s => some s
  | _ :: _, [] => none
  | x :: xs, c :: s => if c = x then stripLit xs s else none

/-- `\s+` (maximal munch): at least one whitespace character. -/
def ws1 : List Char → Option (List Char)
  | [] => none
  | c :: s => if isSpc c then some (s.dropWhile isSpc) else none

/-- `\d+` (maximal munch): at least one digit.  The class is the ASCII subset
of Python's `\d` (which also matches other Unicode decimal digits); see the
section comment for why this subset is sound for everything proved here. -/
def digits1 : List Char → Option (List Char)
  | [] => none
  | c :: s => if c.isDigit then some (s.dropWhile Char.isDigit) else none

/-- No two adjacent asterisks: the field does not contain the template's
delimiter token `**`.  A single `*` is allowed (and round-trips). -/
def noDoubleStar : List Char → Bool
  | c :: d :: rest => !(c == '*' && d == '*') && noDoubleStar (d :: rest)
  | _ => true

/-- A lazy group `(.+?)`: try the shortest non-empty prefix first, handing
group text and remainder to the continuation, growing the group on failure.
This is exactly Python's backtracking preference order. -/
def lazyGroup (cont : List Char → List Char → Option α) :
    List Char → List Char → Option α
  | _, [] => none
  | acc, c :: rest =>
    match cont (acc ++ [c]) rest with
    | some v => some v
    | none => lazyGroup cont (acc ++ [c]) rest

def lit1 : List Char := "**, operating from".data

def lit2 : List Char := "** to".data

def lit3 : List Char := "** aboard".data

def litStars : List Char := "**".data

/-- The pattern text between group 1 and group 2: `\*\*, operating from\s+\*\*`. -/
def sepAfterFlight (s : List Char) : Option (List Char) :=
  (stripLit lit1 s).bind fun s1 => (ws1 s1).bind fun s2 => stripLit litStars s2

/-- The pattern text between group 2 and group 3: `\*\* to\s+\*\*`. -/
def sepAfterDeparture (s : List Char) : Option (List Char) :=
  (stripLit lit2 s).bind fun s1 => (ws1 s1).bind fun s2 => stripLit litStars s2

/-- The pattern text after group 3: `\*\* aboard`. -/
def sepAfterArrival (s : List Char) : Option (List Char) :=
  stripLit lit3 s

def litTailTag : List Char := "<:Tail:".data

def litInvites : List Char := "**Etihad Airways** cordially invites you to attend Flight".data

/-- The pattern text before group 1:
`<:Tail:\d+>\s+\*\*Etihad Airways\*\* cordially invites you to attend Flight\s+\*\*`. -/
def patternHead (s : List Char) : Option (List Char) :=
  (stripLit litTailTag s).bind fun s1 =>
  (digits1 s1).bind fun s2 =>
  (stripLit (">".data) s2).bind fun s3 =>
  (ws1 s3).bind fun s4 =>
  (stripLit litInvites s4).bind fun s5 =>
  (ws1 s5).bind fun s6 =>
  stripLit litStars s6

/-- The three lazy groups and their separators, at a fixed start position. -/
def matchGroups (s : List Char) : Option (List Char × List Char × List Char) :=
  lazyGroup (fun g1 r1 =>
    (sepAfterFlight r1).bind fun r1' =>
      lazyGroup (fun g2 r2 =>
        (sepAfterDeparture r2).bind fun r2' =>
          lazyGroup (fun g3 r3 =>
            (sepAfterArrival r3).map fun _ => (g1, g2, g3)) [] r2') [] r1') [] s

/-- `re.search`: try the whole pattern at each start position, leftmost first. -/
def searchFlightPattern : List Char → Option (List Char × List Char × List Char)
  | [] => none
  | s@(_ :: rest) =>
    match (patternHead s).bind matchGroups with
    | some v => some v
    | none => searchFlightPattern rest

/-- Lines 191-202 of `flight_start`: strip the description, search the fixed
pattern, and strip each captured group; `none` is the parse-error outcome. -/
def extract_flight_info (description : String) : Option (String × String × String) :=
  (searchFlightPattern (pyStrip description.data)).map fun g =>
    (String.mk (pyStrip g.1), String.mk (pyStrip g.2.1), String.mk (pyStrip g.2.2))

/-- The event description built by `flight_create` (lines 138-141). -/
def flight_description (flight_number departure arrival aircraft_type : String) : String :=
  "<:Tail:1375059430269517885> **Etihad Airways** cordially invites you to attend Flight **" ++
  flight_number ++ "**, operating from **" ++ departure ++ "** to **" ++ arrival ++
  "** aboard a **" ++ aircraft_type ++
  "**.\n\n<:Star:1375535064141795460> All passengers are requested to review the flight itinerary in `#itinerary` prior to departure to ensure a smooth and professional operation."

/-! ## The `flight_start` command (claims C3, C8) -/

/-- The inputs `flight_start` observes: the caller's role, the provided link,
the event-fetch response, whether the announcement channel resolves, and the
current instant. -/
structure StartContext where
  has_required_role : Bool
  link : Option String
  fetch_status : Nat
  event : ScheduledEvent
  channel_exists : Bool
  now_us : Int
deriving DecidableEq, Repr

/-- The reply `flight_start` sends to the invoking user. -/
inductive StartReply where
  | noPermission
  | missingLink
  | invalidEvent
  | parseError
  | channelNotFound
  | started (event_name : String)
deriving DecidableEq, Repr

/-- The delayed action scheduled with `asyncio.create_task` (line 242):
its fire instant and the closure's extracted fields. -/
structure DelayedTaskSpec where
  lock_us : Int
  flight_number : String
  departure : String
  arrival : String
deriving DecidableEq, Repr

/-- The outcome of one `flight_start` invocation: the user reply, the
messages sent to the announcement channel, and the delayed tasks scheduled. -/
structure StartResult where
  reply : StartReply
  announcement_sends : List String
  scheduled_tasks : List DelayedTaskSpec
deriving DecidableEq, Repr

/-- The check-in-open announcement text (lines 210-218). -/
def open_message (departure arrival flight_number : String) (minutes : Int)
    (roblox_link : String) : String :=
  "<:Plane:1379811896106156052> **Check-in Now Open**\n-# " ++ departure ++
  "\n\n<:Dash:1379811908886204567> **-**\n> Attention all passengers flying to **" ++
  arrival ++ "** on flight **" ++ flight_number ++
  "**, check-in is now open and will close in **" ++ toString minutes ++
  " minutes**. If you are in need of any assistance throughout your journey, please reach out to a member of staff! Have a good flight.\n\n<:Link:1379811829076856842> " ++
  roblox_link ++ "\n\n|| @everyone @Operations Ping ||"

/-- Lines 169-247, `flight_start`, as a function of its observed inputs.
The guards appear in source order: role check, link check (`if not link`,
which also rejects an empty string), fetch status, pattern extraction,
channel resolution; only after all of them is the open announcement sent and
the single delayed task scheduled. -/
def flight_start (ctx : StartContext) : StartResult :=
  if ¬ ctx.has_required_role then
    { reply := StartReply.noPermission, announcement_sends := [], scheduled_tasks := [] }
  else if ctx.link.getD (r"") = (r"") then
    { reply := StartReply.missingLink, announcement_sends := [], scheduled_tasks := [] }
  else if ctx.fetch_status ≠ 200 then
    { reply := StartReply.invalidEvent, announcement_sends := [], scheduled_tasks := [] }
  else
    match extract_flight_info (ctx.event.description.getD (r"")) with
    | none =>
      { reply := StartReply.parseError, announcement_sends := [], scheduled_tasks := [] }
    | some (fn, dep, arr) =>
      if ¬ ctx.channel_exists then
        { reply := StartReply.channelNotFound, announcement_sends := [], scheduled_tasks := [] }
      else
        { reply := StartReply.started ctx.event.name,
          announcement_sends :=
            [open_message dep arr fn
              (minutes_until_lock ctx.event.scheduled_start_time_us ctx.now_us)
              ctx.event.location],
          scheduled_tasks :=
            [{ lock_us := lock_time_us ctx.event.scheduled_start_time_us,
               flight_number := fn, departure := dep, arrival := arr }] }

/-- The creation payload of `flight_create` (lines 127-148): `start` is
`utcfromtimestamp(flight_time)`, `end` is `start + timedelta(minutes=45)`. -/
def flight_create_payload (flight_number : String) (flight_time : Int)
    (aircraft_type departure arrival roblox_link : String) : FlightEventPayload :=
  let start := pyUtcFromTimestamp flight_time
  let endTime := start + timedeltaMinutes 45
  { name := flight_number ++ " | " ++ departure ++ " - " ++ arrival,
    description := flight_description flight_number departure arrival aircraft_type,
    scheduled_start_time_us := start,
    scheduled_end_time_us := endTime,
    location := roblox_link }

/-! ## Named character sequences of the template and the pattern

The fixed template pieces surrounding the three fields, as character lists;
used to decompose the template and to drive the matcher lemmas. -/

def headChars : List Char :=
  "<:Tail:1375059430269517885> **Etihad Airways** cordially invites you to attend Flight **".data

def headCharsTail : List Char :=
  ":Tail:1375059430269517885> **Etihad Airways** cordially invites you to attend Flight **".data

def sep1chars : List Char := "**, operating from **".data

def sep2chars : List Char := "** to **".data

def sep3chars : List Char := "** aboard a **".data

def sep3restChars : List Char := " a **".data

def tailChars : List Char :=
  "**.\n\n<:Star:1375535064141795460> All passengers are requested to review the flight itinerary in `#itinerary` prior to departure to ensure a smooth and professional operation.".data

def lit1tail : List Char := "*, operating from".data

def lit2tail : List Char := "* to".data

def lit3tail : List Char := "* aboard".data

/-! ## Concrete inputs used by witnesses and counterexamples -/

/-- A sample event used to instantiate hypotheses of the claim theorems. -/
def sampleEventA : ScheduledEvent :=
  { name := r"EA301 | Edinburgh - Madeira", description := some (r"desc"),
    scheduled_start_time_us := 1000000, location := r"link" }

/-- A sample event whose start is in the past. -/
def sampleEventPast : ScheduledEvent :=
  { name := r"past", description := none, scheduled_start_time_us := -5, location := r"" }

/-- A sample event tying with `sampleEventA` on start time. -/
def sampleEventTie : ScheduledEvent :=
  { name := r"tie", description := none, scheduled_start_time_us := 1000000, location := r"" }

/-- Concrete field strings for the extraction round trip. -/
def exFlightNumber : String := "EA301"

/-- A departure string with a leading space (stripped by the extraction). -/
def exDepartureSpaced : String := " Edinburgh"

def exDeparture : String := "Edinburgh"

def exArrival : String := "Madeira"

def exAircraft : String := "A320neo"

/-- A departure string with a trailing no-break space (U+00A0), stripped by
Python's `str.strip()` though it is not ASCII whitespace. -/
def exDepartureNbsp : String := "Edinburgh\u00A0"

/-- The empty field: `(.+?)` cannot match it, so the pattern fails. -/
def exEmptyField : String := ""

/-- A flight number embedding the template's own separator text: the lazy
groups split at the embedded copy, not at the template's boundary. -/
def exBreakFlightNumber : String := "F1**, operating from **F2"

/-- A `flight_start` context whose event description does not match the
extraction pattern. -/
def parseErrorCtx : StartContext :=
  { has_required_role := true,
    link := some (r"https://discord.com/events/1/2"),
    fetch_status := 200,
    event := { name := r"X", description := some (r"hello"),
               scheduled_start_time_us := 0, location := r"" },
    channel_exists := true, now_us := 0 }

/-! # Claim theorems -/

/-- C1: the six configuration identifiers are bound only as constructor
locals, never as instance attributes; consequently in each of
`update_webhook`, `flight_create`, `flight_start` and `flight_cancel` the
first unresolved `self.<name>` read is a configuration name, it raises
`AttributeError`, and the operation never reaches its external call that
would use a configured identifier. -/
theorem c1_config_locals_unreachable :
    (∀ n ∈ constructorLocalConfigNames, getattrFlightScheduler n = none) ∧
    (∀ n ∈ instanceAttributeNames, n ∉ constructorLocalConfigNames) ∧
    firstUnboundRead selfReads_update_webhook = some (r"GUILD_ID") ∧
    firstUnboundRead selfReads_flight_create = some (r"REQUIRED_ROLE_ID") ∧
    firstUnboundRead selfReads_flight_start = some (r"REQUIRED_ROLE_ID") ∧
    firstUnboundRead selfReads_flight_cancel = some (r"REQUIRED_ROLE_ID") ∧
    ((r"GUILD_ID") ∈ constructorLocalConfigNames ∧
      (r"REQUIRED_ROLE_ID") ∈ constructorLocalConfigNames) ∧
    reachesConfiguredExternalCall selfReads_update_webhook = false ∧
    reachesConfiguredExternalCall selfReads_flight_create = false ∧
    reachesConfiguredExternalCall selfReads_flight_start = false ∧
    reachesConfiguredExternalCall selfReads_flight_cancel = false := by
  decide

theorem eventLE_trans :
    ∀ (a b c : ScheduledEvent), eventLE a b → eventLE b c → eventLE a c := by
  intro a b c hab hbc
  simp only [eventLE, decide_eq_true_eq] at *
  omega

theorem eventLE_total : ∀ (a b : ScheduledEvent), eventLE a b || eventLE b a := by
  intro a b
  simp only [eventLE, Bool.or_eq_true, decide_eq_true_eq]
  omega

/-- C2: one refresher tick retains exactly the fetched items whose start is
strictly after the current instant, orders them ascending by start time, and
keeps items with equal start times in original fetch order (for every key,
the retained items with that key are the fetched items with that key, in
fetch order — the stability of the sort). -/
theorem c2_upcoming_filter_sorted_stable (events : List ScheduledEvent) (now_us : Int) :
    (∀ e, e ∈ upcoming events now_us ↔ (e ∈ events ∧ now_us < e.scheduled_start_time_us)) ∧
    (upcoming events now_us).Pairwise
      (fun a b => a.scheduled_start_time_us ≤ b.scheduled_start_time_us) ∧
    (∀ k : Int, (upcoming events now_us).filter
        (fun e => decide (e.scheduled_start_time_us = k))
      = events.filter (fun e =>
          decide (now_us < e.scheduled_start_time_us) &&
          decide (e.scheduled_start_time_us = k))) := by
  refine ⟨?_, ?_, ?_⟩
  · intro e
    simp [upcoming, List.mem_mergeSort, List.mem_filter]
  · have hs : ((events.filter fun e =>
        decide (now_us < e.scheduled_start_time_us)).mergeSort eventLE).Pairwise
          (fun a b => eventLE a b = true) :=
      List.sorted_mergeSort eventLE_trans eventLE_total _
    exact hs.imp (by intro a b h; simpa [eventLE] using h)
  · intro k
    set q : ScheduledEvent → Bool := fun e => decide (now_us < e.scheduled_start_time_us) with hq
    set p : ScheduledEvent → Bool := fun e => decide (e.scheduled_start_time_us = k) with hp
    have hpair : ((events.filter q).filter p).Pairwise (fun a b => eventLE a b) := by
      apply List.pairwise_of_forall_mem_list
      intro a ha b hb
      simp only [List.mem_filter, hp, decide_eq_true_eq] at ha hb
      simp only [eventLE, decide_eq_true_eq]
      omega
    have hsubl : List.Sublist ((events.filter q).filter p) (upcoming events now_us) :=
      List.sublist_mergeSort eventLE_trans eventLE_total hpair (List.filter_sublist _)
    have hsubf := hsubl.filter p
    have hidem : ((events.filter q).filter p).filter p = (events.filter q).filter p := by
      simp
    rw [hidem] at hsubf
    have hperm : List.Perm (upcoming events now_us) (events.filter q) :=
      List.mergeSort_perm _ _
    have hlen : ((upcoming events now_us).filter p).length
        = ((events.filter q).filter p).length := (hperm.filter p).length_eq
    have heq : (events.filter q).filter p = (upcoming events now_us).filter p :=
      hsubf.eq_of_length hlen.symm
    rw [← heq, List.filter_filter]
    exact List.filter_congr (fun a _ => by rw [Bool.and_comm])

/-- C2 witness: the theorem instantiated at a concrete fetch containing a
past item and two items with equal start times. -/
theorem c2_upcoming_filter_sorted_stable_witness :
    (∀ e, e ∈ upcoming [sampleEventA, sampleEventPast, sampleEventTie] 0 ↔
      (e ∈ [sampleEventA, sampleEventPast, sampleEventTie] ∧
        0 < e.scheduled_start_time_us)) ∧
    (upcoming [sampleEventA, sampleEventPast, sampleEventTie] 0).Pairwise
      (fun a b => a.scheduled_start_time_us ≤ b.scheduled_start_time_us) ∧
    (∀ k : Int, (upcoming [sampleEventA, sampleEventPast, sampleEventTie] 0).filter
        (fun e => decide (e.scheduled_start_time_us = k))
      = [sampleEventA, sampleEventPast, sampleEventTie].filter (fun e =>
          decide (0 < e.scheduled_start_time_us) &&
          decide (e.scheduled_start_time_us = k))) :=
  c2_upcoming_filter_sorted_stable [sampleEventA, sampleEventPast, sampleEventTie] 0

/-- C3: `minutes_until_lock` equals `max 0` of the floor of the minute
difference (truncation toward zero and floor agree once clamped at zero),
and it is never negative, for every start time including past ones. -/
theorem c3_minutes_until_lock_clamped (start_time_us now_us : Int) :
    minutes_until_lock start_time_us now_us
      = max 0 (Int.fdiv (lock_time_us start_time_us - now_us) 60000000) ∧
    0 ≤ minutes_until_lock start_time_us now_us := by
  constructor
  · unfold minutes_until_lock
    rcases le_or_lt 0 (lock_time_us start_time_us - now_us) with h | h
    · rw [Int.tdiv_eq_ediv h (by decide), Int.fdiv_eq_ediv _ (by decide)]
    · have h1 : Int.tdiv (lock_time_us start_time_us - now_us) 60000000 ≤ 0 := by
        have h2 := @Int.tdiv_nonneg (-(lock_time_us start_time_us - now_us))
          60000000 (by omega) (by decide)
        have h3 : Int.tdiv (-(lock_time_us start_time_us - now_us)) 60000000
            = -(Int.tdiv (lock_time_us start_time_us - now_us) 60000000) :=
          Int.neg_tdiv _ _
        omega
      have h4 : Int.fdiv (lock_time_us start_time_us - now_us) 60000000 ≤ 0 := by
        rw [Int.fdiv_eq_ediv _ (by decide)]
        omega
      omega
  · exact le_max_left _ _

/-- C4 counterexample: with `lock_time` one minute in the past, the duration
the module hands to `asyncio.sleep` is the raw negative difference, not the
zero the claim says is passed. -/
theorem c4_counterexample :
    sleep_argument_us 0 60000000 = -60000000 ∧
    sleep_argument_claimed 0 60000000 = 0 ∧
    sleep_argument_us 0 60000000 ≠ sleep_argument_claimed 0 60000000 := by
  decide

/-- C4 (amended): the module passes the unclamped difference
`lockTime - now` to the delay primitive; it is the primitive itself
(`asyncio.sleep`) that treats a zero or negative delay as an immediate
return, so when `lockTime ≤ now` the effective wait is zero and the
delayed action still runs its delete attempt and closed announcement —
it is never skipped. -/
theorem c4_amended_immediate_fire (lock_us now_us : Int) (del : DeleteOutcome)
    (flight_number departure arrival : String)
    (h : lock_us - now_us ≤ 0) :
    asyncio_sleep_effective_wait (sleep_argument_us lock_us now_us) = 0 ∧
    send_checkin_closed lock_us now_us del flight_number departure arrival
      = [TaskStep.sleep (sleep_argument_us lock_us now_us),
         TaskStep.deleteOpenMessage del,
         TaskStep.sendChannel (closed_message flight_number departure arrival)] := by
  constructor
  · unfold asyncio_sleep_effective_wait sleep_argument_us
    omega
  · cases del <;> rfl

/-- C4 witness: the amended theorem at `lock_us = 0`, `now_us` one minute
later, a failing delete, and concrete fields. -/
theorem c4_amended_immediate_fire_witness :
    (0 : Int) - 60000000 ≤ 0 ∧
    (asyncio_sleep_effective_wait (sleep_argument_us 0 60000000) = 0 ∧
      send_checkin_closed 0 60000000 DeleteOutcome.httpException
          (r"EA301") (r"Edinburgh") (r"Madeira")
        = [TaskStep.sleep (sleep_argument_us 0 60000000),
           TaskStep.deleteOpenMessage DeleteOutcome.httpException,
           TaskStep.sendChannel
             (closed_message (r"EA301") (r"Edinburgh") (r"Madeira"))]) :=
  ⟨by decide,
   c4_amended_immediate_fire 0 60000000 DeleteOutcome.httpException
     (r"EA301") (r"Edinburgh") (r"Madeira") (by decide)⟩

/-- C9: the delayed task performs, in order, the sleep until `lock_time`,
then the delete attempt whose failure (any `discord.HTTPException`, e.g.
already deleted) is absorbed, then the closed announcement built from the
same extracted fields — the announcement is sent for either delete outcome. -/
theorem c9_delayed_action_order (lock_us now_us : Int) (del : DeleteOutcome)
    (flight_number departure arrival : String) :
    send_checkin_closed lock_us now_us del flight_number departure arrival
      = [TaskStep.sleep (sleep_argument_us lock_us now_us),
         TaskStep.deleteOpenMessage del,
         TaskStep.sendChannel (closed_message flight_number departure arrival)] := by
  cases del <;> rfl

/-! ## Matcher lemmas (towards claim C5) -/

theorem headChars_cons : headChars = '<' :: headCharsTail := rfl

theorem lit1_cons : lit1 = '*' :: lit1tail := rfl

theorem lit2_cons : lit2 = '*' :: lit2tail := rfl

theorem lit3_cons : lit3 = '*' :: lit3tail := rfl

/-- The template decomposed around its three fields. -/
theorem flight_description_data (F D A T : String) :
    (flight_description F D A T).data =
      headChars ++ (F.data ++ (sep1chars ++ (D.data ++ (sep2chars ++ (A.data ++
        (sep3chars ++ (T.data ++ tailChars))))))) := by
  simp [flight_description, headChars, sep1chars, sep2chars, sep3chars, tailChars,
    String.data_append, List.append_assoc]

theorem patternHead_boundary (X : List Char) : patternHead (headChars ++ X) = some X := rfl

theorem sepAfterFlight_boundary (X : List Char) :
    sepAfterFlight (sep1chars ++ X) = some X := rfl

theorem sepAfterDeparture_boundary (X : List Char) :
    sepAfterDeparture (sep2chars ++ X) = some X := rfl

theorem sepAfterArrival_boundary (X : List Char) :
    sepAfterArrival (sep3chars ++ X) = some (sep3restChars ++ X) := rfl

theorem stripLit_cons_ne {x c : Char} (h : c ≠ x) (xs s : List Char) :
    stripLit (x :: xs) (c :: s) = none := by
  simp [stripLit, h]

/-- Each separator pattern begins with a star, so it cannot match at a
position holding any other character. -/
theorem sepAfterFlight_fail {c : Char} (h : c ≠ '*') (r : List Char) :
    sepAfterFlight (c :: r) = none := by
  have h1 : stripLit lit1 (c :: r) = none := by
    rw [lit1_cons]; exact stripLit_cons_ne h _ _
  simp [sepAfterFlight, h1]

theorem sepAfterDeparture_fail {c : Char} (h : c ≠ '*') (r : List Char) :
    sepAfterDeparture (c :: r) = none := by
  have h1 : stripLit lit2 (c :: r) = none := by
    rw [lit2_cons]; exact stripLit_cons_ne h _ _
  simp [sepAfterDeparture, h1]

theorem sepAfterArrival_fail {c : Char} (h : c ≠ '*') (r : List Char) :
    sepAfterArrival (c :: r) = none := by
  have h1 : stripLit lit3 (c :: r) = none := by
    rw [lit3_cons]; exact stripLit_cons_ne h _ _
  simpa [sepAfterArrival] using h1

theorem lazyGroup_cons_some {α : Type} (cont : List Char → List Char → Option α)
    (acc : List Char) (c : Char) (rest : List Char) (v : α)
    (h : cont (acc ++ [c]) rest = some v) :
    lazyGroup cont acc (c :: rest) = some v := by
  simp only [lazyGroup, h]

theorem lazyGroup_cons_none {α : Type} (cont : List Char → List Char → Option α)
    (acc : List Char) (c : Char) (rest : List Char)
    (h : cont (acc ++ [c]) rest = none) :
    lazyGroup cont acc (c :: rest) = lazyGroup cont (acc ++ [c]) rest := by
  simp only [lazyGroup, h]

theorem lit1_cons2 : lit1 = '*' :: '*' :: ", operating from".data := rfl

theorem lit2_cons2 : lit2 = '*' :: '*' :: " to".data := rfl

theorem lit3_cons2 : lit3 = '*' :: '*' :: " aboard".data := rfl

theorem stripLit_star2_fail {d : Char} (hd : d ≠ '*') (xs r : List Char) :
    stripLit ('*' :: '*' :: xs) ('*' :: d :: r) = none := by
  simp [stripLit, hd]

/-- A star followed by a non-star cannot begin any of the separators
(each starts with two stars). -/
theorem sepAfterFlight_fail_starstar {d : Char} (hd : d ≠ '*') (r : List Char) :
    sepAfterFlight ('*' :: d :: r) = none := by
  have h1 : stripLit lit1 ('*' :: d :: r) = none := by
    rw [lit1_cons2]
    exact stripLit_star2_fail hd _ _
  simp [sepAfterFlight, h1]

theorem sepAfterDeparture_fail_starstar {d : Char} (hd : d ≠ '*') (r : List Char) :
    sepAfterDeparture ('*' :: d :: r) = none := by
  have h1 : stripLit lit2 ('*' :: d :: r) = none := by
    rw [lit2_cons2]
    exact stripLit_star2_fail hd _ _
  simp [sepAfterDeparture, h1]

theorem sepAfterArrival_fail_starstar {d : Char} (hd : d ≠ '*') (r : List Char) :
    sepAfterArrival ('*' :: d :: r) = none := by
  have h1 : stripLit lit3 ('*' :: d :: r) = none := by
    rw [lit3_cons2]
    exact stripLit_star2_fail hd _ _
  simpa [sepAfterArrival] using h1

/-- A field's final star, directly followed by the template's own separator,
still cannot complete that separator: the third character mismatches. -/
theorem sepAfterFlight_fail_starsep (X : List Char) :
    sepAfterFlight ('*' :: (sep1chars ++ X)) = none := rfl

theorem sepAfterDeparture_fail_starsep (X : List Char) :
    sepAfterDeparture ('*' :: (sep2chars ++ X)) = none := rfl

theorem sepAfterArrival_fail_starsep (X : List Char) :
    sepAfterArrival ('*' :: (sep3chars ++ X)) = none := rfl

theorem noDoubleStar_tail {a : Char} {t : List Char}
    (h : noDoubleStar (a :: t) = true) : noDoubleStar t = true := by
  cases t with
  | nil => rfl
  | cons b t2 =>
    have he : noDoubleStar (a :: b :: t2)
        = (!(a == '*' && b == '*') && noDoubleStar (b :: t2)) := rfl
    rw [he, Bool.and_eq_true] at h
    exact h.2

/-- In a list without adjacent stars, no split exposes two adjacent stars. -/
theorem noDoubleStar_split : ∀ (p : List Char) {c d : Char} (q : List Char),
    noDoubleStar (p ++ c :: d :: q) = true → ¬(c = '*' ∧ d = '*') := by
  intro p
  induction p with
  | nil =>
    intro c d q h hcd
    obtain ⟨hc, hd⟩ := hcd
    subst hc
    subst hd
    simp [noDoubleStar] at h
  | cons a p ih =>
    intro c d q h
    exact ih q (noDoubleStar_tail (by simpa using h))

/-- At every proper stop inside a field without adjacent stars, the following
separator fails: the remaining field text begins with a non-star, with a
lone final star abutting the real separator, or with a star-then-non-star. -/
theorem sep_stop_fail (sep : List Char → Option (List Char)) (sepchars X : List Char)
    (hhead : ∀ (c : Char) (r : List Char), c ≠ '*' → sep (c :: r) = none)
    (hstarsep : ∀ Y : List Char, sep ('*' :: (sepchars ++ Y)) = none)
    (hstar2 : ∀ (d : Char) (r : List Char), d ≠ '*' → sep ('*' :: d :: r) = none)
    (hX : noDoubleStar X = true) :
    ∀ (p q rest : List Char), X = p ++ q → q ≠ [] →
      sep (q ++ (sepchars ++ rest)) = none := by
  intro p q rest hpq hq
  cases q with
  | nil => exact absurd rfl hq
  | cons c q1 =>
    by_cases hc : c = '*'
    · subst hc
      cases q1 with
      | nil => simpa using hstarsep rest
      | cons d q2 =>
        have hsplit : noDoubleStar (p ++ '*' :: d :: q2) = true := by
          rw [← hpq]; exact hX
        have hcd := noDoubleStar_split p q2 hsplit
        have hd : d ≠ '*' := fun hdd => hcd ⟨rfl, hdd⟩
        simpa using hstar2 d (q2 ++ (sepchars ++ rest)) hd
    · simpa using hhead c (q1 ++ (sepchars ++ rest)) hc

/-- If the continuation fails at every proper stop inside `xs`, walking the
lazy group across the non-empty block `xs` reaches exactly the stop at the
end of `xs`. -/
theorem lazyGroup_reaches {α : Type} (cont : List Char → List Char → Option α) :
    ∀ (xs acc rest : List Char) (v : α), xs ≠ [] →
      (∀ p q, xs = p ++ q → p ≠ [] → q ≠ [] → cont (acc ++ p) (q ++ rest) = none) →
      cont (acc ++ xs) rest = some v →
      lazyGroup cont acc (xs ++ rest) = some v := by
  intro xs
  induction xs with
  | nil => intro acc rest v hne _ _; exact absurd rfl hne
  | cons c cs ih =>
    intro acc rest v _ hstop hsucc
    cases cs with
    | nil =>
      have hs : cont (acc ++ [c]) rest = some v := hsucc
      simpa using lazyGroup_cons_some cont acc c rest v hs
    | cons c2 cs2 =>
      have h1 : cont (acc ++ [c]) ((c2 :: cs2) ++ rest) = none :=
        hstop [c] (c2 :: cs2) rfl (by simp) (by simp)
      have h2 : cont ((acc ++ [c]) ++ (c2 :: cs2)) rest = some v := by
        rw [List.append_assoc]
        simpa using hsucc
      have hstop2 : ∀ p q, (c2 :: cs2) = p ++ q → p ≠ [] → q ≠ [] →
          cont ((acc ++ [c]) ++ p) (q ++ rest) = none := by
        intro p q hpq hp hq
        have h5 := hstop (c :: p) q (by rw [List.cons_append, ← hpq]) (by simp) hq
        simpa [List.append_assoc] using h5
      have h3 := ih (acc ++ [c]) rest v (by simp) hstop2 h2
      have h4 := lazyGroup_cons_none cont acc c ((c2 :: cs2) ++ rest) h1
      calc lazyGroup cont acc ((c :: c2 :: cs2) ++ rest)
          = lazyGroup cont (acc ++ [c]) ((c2 :: cs2) ++ rest) := by
            simpa using h4
        _ = some v := h3

theorem matchGroups_level3 (g1 g2 : List Char) (A rest : List Char)
    (hA : A ≠ []) (hAs : noDoubleStar A = true) :
    lazyGroup (fun g3 r3 => (sepAfterArrival r3).map fun _ => (g1, g2, g3)) []
      (A ++ (sep3chars ++ rest)) = some (g1, g2, A) := by
  apply lazyGroup_reaches _ A [] (sep3chars ++ rest) _ hA ?hstop ?hsucc
  case hstop =>
    intro p q hpq hp hq
    have hsf := sep_stop_fail sepAfterArrival sep3chars A
      (fun c r hc => sepAfterArrival_fail hc r)
      sepAfterArrival_fail_starsep
      (fun d r hd => sepAfterArrival_fail_starstar hd r)
      hAs p q rest hpq hq
    simp [hsf]
  case hsucc =>
    rw [List.nil_append, sepAfterArrival_boundary]
    rfl

theorem matchGroups_level2 (g1 : List Char) (D A rest : List Char)
    (hD : D ≠ []) (hDs : noDoubleStar D = true)
    (hA : A ≠ []) (hAs : noDoubleStar A = true) :
    lazyGroup (fun g2 r2 =>
        (sepAfterDeparture r2).bind fun r2' =>
          lazyGroup (fun g3 r3 =>
            (sepAfterArrival r3).map fun _ => (g1, g2, g3)) [] r2') []
      (D ++ (sep2chars ++ (A ++ (sep3chars ++ rest)))) = some (g1, D, A) := by
  apply lazyGroup_reaches _ D [] _ _ hD ?hstop ?hsucc
  case hstop =>
    intro p q hpq hp hq
    have hsf := sep_stop_fail sepAfterDeparture sep2chars D
      (fun c r hc => sepAfterDeparture_fail hc r)
      sepAfterDeparture_fail_starsep
      (fun d r hd => sepAfterDeparture_fail_starstar hd r)
      hDs p q (A ++ (sep3chars ++ rest)) hpq hq
    simp [hsf]
  case hsucc =>
    rw [List.nil_append, sepAfterDeparture_boundary]
    exact matchGroups_level3 g1 D A rest hA hAs

/-- On text of the template's group shape, the backtracking groups recover
exactly the three embedded blocks: in a field without adjacent stars no
earlier lazy stop can complete a separator, so the leftmost-lazy split is
the template's own. -/
theorem matchGroups_template (F D A : List Char) (rest : List Char)
    (hF : F ≠ []) (hFs : noDoubleStar F = true)
    (hD : D ≠ []) (hDs : noDoubleStar D = true)
    (hA : A ≠ []) (hAs : noDoubleStar A = true) :
    matchGroups (F ++ (sep1chars ++ (D ++ (sep2chars ++ (A ++ (sep3chars ++ rest))))))
      = some (F, D, A) := by
  unfold matchGroups
  apply lazyGroup_reaches _ F [] _ _ hF ?hstop ?hsucc
  case hstop =>
    intro p q hpq hp hq
    have hsf := sep_stop_fail sepAfterFlight sep1chars F
      (fun c r hc => sepAfterFlight_fail hc r)
      sepAfterFlight_fail_starsep
      (fun d r hd => sepAfterFlight_fail_starstar hd r)
      hFs p q (D ++ (sep2chars ++ (A ++ (sep3chars ++ rest)))) hpq hq
    simp [hsf]
  case hsucc =>
    rw [List.nil_append, sepAfterFlight_boundary]
    exact matchGroups_level2 F D A rest hD hDs hA hAs

theorem searchFlightPattern_hit (s : List Char) (v : List Char × List Char × List Char)
    (hne : s ≠ []) (h : (patternHead s).bind matchGroups = some v) :
    searchFlightPattern s = some v := by
  cases s with
  | nil => exact absurd rfl hne
  | cons c cs => simp only [searchFlightPattern, h]

theorem dropWhile_eq_self_of_head {l : List Char}
    (h : ∀ c, l.head? = some c → isSpc c = false) :
    l.dropWhile isSpc = l := by
  cases l with
  | nil => rfl
  | cons a t => simp [List.dropWhile_cons, h a rfl]

theorem pyStrip_eq_self {l : List Char}
    (h1 : ∀ c, l.head? = some c → isSpc c = false)
    (h2 : ∀ c, l.getLast? = some c → isSpc c = false) :
    pyStrip l = l := by
  unfold pyStrip
  rw [dropWhile_eq_self_of_head h1]
  rw [dropWhile_eq_self_of_head (fun c hc => h2 c (by rwa [List.head?_reverse] at hc))]
  exact List.reverse_reverse l

theorem template_getLast (F D A T : String) :
    ((flight_description F D A T).data).getLast? = some '.' := by
  rw [flight_description_data]
  have h : tailChars.getLast? = some '.' := by decide
  simp [List.getLast?_append, h]

theorem template_head (F D A T : String) :
    ((flight_description F D A T).data).head? = some '<' := by
  rw [flight_description_data, headChars_cons]
  rfl

/-- C5 counterexample: the original claim fails at a concrete input, and
each hypothesis of the amendment corresponds to an exhibited failure.
(1) a departure with a leading ASCII space and (2) one with a trailing
no-break space (U+00A0) come back stripped by the `.strip()` of the captured
groups, not verbatim; (3) an empty flight number makes the pattern fail to
match; (4) a flight number embedding the template's `**`-delimited separator
text matches but mis-splits the groups. -/
theorem c5_roundtrip_counterexamples :
    (extract_flight_info
        (flight_description exFlightNumber exDepartureSpaced exArrival exAircraft)
      = some (exFlightNumber, exDeparture, exArrival) ∧
     extract_flight_info
        (flight_description exFlightNumber exDepartureSpaced exArrival exAircraft)
      ≠ some (exFlightNumber, exDepartureSpaced, exArrival)) ∧
    (extract_flight_info
        (flight_description exFlightNumber exDepartureNbsp exArrival exAircraft)
      = some (exFlightNumber, exDeparture, exArrival) ∧
     extract_flight_info
        (flight_description exFlightNumber exDepartureNbsp exArrival exAircraft)
      ≠ some (exFlightNumber, exDepartureNbsp, exArrival)) ∧
    extract_flight_info
        (flight_description exEmptyField exDeparture exArrival exAircraft) = none ∧
    ((extract_flight_info
        (flight_description exBreakFlightNumber exDeparture exArrival exAircraft)).isSome
      = true ∧
     extract_flight_info
        (flight_description exBreakFlightNumber exDeparture exArrival exAircraft)
      ≠ some (exBreakFlightNumber, exDeparture, exArrival)) :=
  ⟨⟨by decide, by decide⟩, ⟨by decide, by decide⟩, by decide, ⟨by decide, by decide⟩⟩

/-- C5 (amended): the round trip holds for every flight number, departure
and arrival that are non-empty, contain no two adjacent asterisks (the
template's own delimiter token; a single `*` is fine) and carry no leading
or trailing whitespace in Python's sense (`str.strip()` strips Unicode
whitespace), with any aircraft type: the creation template's text, fed to
the extraction pattern, matches and yields back exactly the original three
strings.  Each hypothesis is forced by a conjunct of
the counterexample theorem: surrounding whitespace — ASCII or not — is
removed by the `.strip()` of each captured group, an empty field cannot
match `(.+?)`, and an embedded `**`-separator makes the lazy groups split at
the embedded copy. -/
theorem c5_template_extraction_roundtrip (F D A T : String)
    (hF : F.data ≠ []) (hFs : noDoubleStar F.data = true) (hFt : pyStrip F.data = F.data)
    (hD : D.data ≠ []) (hDs : noDoubleStar D.data = true) (hDt : pyStrip D.data = D.data)
    (hA : A.data ≠ []) (hAs : noDoubleStar A.data = true) (hAt : pyStrip A.data = A.data) :
    extract_flight_info (flight_description F D A T) = some (F, D, A) := by
  have hhead : ∀ c, ((flight_description F D A T).data).head? = some c → isSpc c = false := by
    intro c hc
    rw [template_head] at hc
    have hc2 := Option.some.inj hc
    subst hc2
    decide
  have hlast : ∀ c, ((flight_description F D A T).data).getLast? = some c → isSpc c = false := by
    intro c hc
    rw [template_getLast] at hc
    have hc2 := Option.some.inj hc
    subst hc2
    decide
  have hstrip : pyStrip ((flight_description F D A T).data) = (flight_description F D A T).data :=
    pyStrip_eq_self hhead hlast
  unfold extract_flight_info
  rw [hstrip, flight_description_data]
  have hs : searchFlightPattern (headChars ++ (F.data ++ (sep1chars ++ (D.data ++
      (sep2chars ++ (A.data ++ (sep3chars ++ (T.data ++ tailChars))))))))
      = some (F.data, D.data, A.data) := by
    apply searchFlightPattern_hit
    · rw [headChars_cons]
      exact List.cons_ne_nil _ _
    · rw [patternHead_boundary]
      exact matchGroups_template F.data D.data A.data _ hF hFs hD hDs hA hAs
  rw [hs]
  simp only [Option.map_some']
  rw [hFt, hDt, hAt]

/-- C5 witness: the amended round trip at concrete well-formed fields. -/
theorem c5_template_extraction_roundtrip_witness :
    (exFlightNumber.data ≠ [] ∧ noDoubleStar exFlightNumber.data = true ∧
      exDeparture.data ≠ [] ∧ exArrival.data ≠ []) ∧
    extract_flight_info
        (flight_description exFlightNumber exDeparture exArrival exAircraft)
      = some (exFlightNumber, exDeparture, exArrival) :=
  ⟨⟨by decide, by decide, by decide, by decide⟩,
   c5_template_extraction_roundtrip exFlightNumber exDeparture exArrival exAircraft
     (by decide) (by decide) (by decide) (by decide) (by decide) (by decide)
     (by decide) (by decide) (by decide)⟩

/-- C6: rendering an empty filtered list yields the fixed placeholder embed;
a non-empty list yields exactly the first `min(length, 2)` items as fields;
in every case the rendered field count is at most 2. -/
theorem c6_rendering_page_size :
    buildEmbed [] = emptyScheduleEmbed ∧
    (∀ l : List ScheduledEvent, l ≠ [] →
      (buildEmbed l).fields =
        some ((l.take 2).map fun e => { name := e.name, value := e.description.getD (r"") }) ∧
      ((buildEmbed l).fields.getD []).length = min l.length 2) ∧
    ∀ l : List ScheduledEvent, ((buildEmbed l).fields.getD []).length ≤ 2 := by
  refine ⟨rfl, ?_, ?_⟩
  · intro l hl
    cases l with
    | nil => exact absurd rfl hl
    | cons a t =>
      constructor
      · simp [buildEmbed]
      · simp [buildEmbed, List.length_take]
        omega
  · intro l
    cases l with
    | nil => simp [buildEmbed, emptyScheduleEmbed]
    | cons a t => simp [buildEmbed, List.length_take]

/-- C6 witness: the non-empty branch of `c6_rendering_page_size` at a
one-element list. -/
theorem c6_rendering_page_size_witness :
    ([sampleEventA] : List ScheduledEvent) ≠ [] ∧
    ((buildEmbed [sampleEventA]).fields =
        some (([sampleEventA].take 2).map
          fun e => { name := e.name, value := e.description.getD (r"") }) ∧
      ((buildEmbed [sampleEventA]).fields.getD []).length = min [sampleEventA].length 2) :=
  ⟨by decide, c6_rendering_page_size.2.1 [sampleEventA] (by decide)⟩

/-- C7: when the scheduled-events fetch returns a non-200 status, the tick
emits exactly the fetch warning — in particular it never patches the webhook
message — and, the tick being a total function on this path, no exception
escapes it. -/
theorem c7_fetch_failure_soft (fetch : FetchResponse) (patchStatus : Nat)
    (logChannelExists : Bool) (now_us : Int) (h : fetch.status ≠ 200) :
    update_webhook_tick fetch patchStatus logChannelExists now_us
      = [TickEffect.warnFetchFailed fetch.status] ∧
    ∀ embed, TickEffect.patchWebhook embed ∉
      update_webhook_tick fetch patchStatus logChannelExists now_us := by
  have h1 : update_webhook_tick fetch patchStatus logChannelExists now_us
      = [TickEffect.warnFetchFailed fetch.status] := by
    simp [update_webhook_tick, h]
  exact ⟨h1, by intro e; rw [h1]; simp⟩

/-- C7 witness: a tick whose fetch returned 404. -/
theorem c7_fetch_failure_soft_witness :
    (FetchResponse.mk 404 []).status ≠ 200 ∧
    (update_webhook_tick (FetchResponse.mk 404 []) 200 true 0
        = [TickEffect.warnFetchFailed (FetchResponse.mk 404 []).status] ∧
      ∀ embed, TickEffect.patchWebhook embed ∉
        update_webhook_tick (FetchResponse.mk 404 []) 200 true 0) :=
  ⟨by decide, c7_fetch_failure_soft (FetchResponse.mk 404 []) 200 true 0 (by decide)⟩

/-- C8: a `flight_start` invocation that passes the role, link and fetch
guards but whose event description does not match the extraction pattern
replies with the parse error, sends no announcement and schedules no delayed
task. -/
theorem c8_parse_error_no_side_effects (ctx : StartContext)
    (hrole : ctx.has_required_role = true)
    (hlink : ctx.link.getD (r"") ≠ (r""))
    (hstatus : ctx.fetch_status = 200)
    (hparse : extract_flight_info (ctx.event.description.getD (r"")) = none) :
    flight_start ctx
      = { reply := StartReply.parseError,
          announcement_sends := [], scheduled_tasks := [] } := by
  simp [flight_start, hrole, hlink, hstatus, hparse]

/-- C8 witness: the theorem at `parseErrorCtx`. -/
theorem c8_parse_error_no_side_effects_witness :
    parseErrorCtx.has_required_role = true ∧
    parseErrorCtx.link.getD (r"") ≠ (r"") ∧
    parseErrorCtx.fetch_status = 200 ∧
    extract_flight_info (parseErrorCtx.event.description.getD (r"")) = none ∧
    flight_start parseErrorCtx
      = { reply := StartReply.parseError,
          announcement_sends := [], scheduled_tasks := [] } :=
  ⟨rfl, by decide, rfl, by decide,
   c8_parse_error_no_side_effects parseErrorCtx rfl (by decide) rfl (by decide)⟩

/-- C10: for every creation input, the scheduled end submitted to the API is
the scheduled start plus 45 minutes. -/
theorem c10_end_is_start_plus_45min (flight_number : String) (flight_time : Int)
    (aircraft_type departure arrival roblox_link : String) :
    (flight_create_payload flight_number flight_time aircraft_type departure
        arrival roblox_link).scheduled_end_time_us
      = (flight_create_payload flight_number flight_time aircraft_type departure
          arrival roblox_link).scheduled_start_time_us + 45 * 60 * 1000000 := by
  rfl
